import Mathlib

/-!
Verification of the concurrent fetch-and-download engine of CyberDropDownloader.

Each Python function relevant to the claims is shallowly embedded as an
executable Lean definition, translated directly from the source files:
  * `managers/client_manager.py`   — rate-limiter tables, `get_request_limiter`,
    `check_http_status`
  * `downloader/downloader.py`     — `retry` wrapper, `get_valid_segment_lines`,
    HLS segment success counting, `run` / `was_processed_before`
  * `managers/storage_manager.py`  — `get_mount_point`, `_has_sufficient_space`,
    `check_free_space`
  * `clients/hash_client.py`       — `cleanup_dupes_after_download`,
    `final_dupe_cleanup`
  * `clients/scraper_client.py`    — `get_soup` challenge/solver retry path
Asynchronous effects (awaits, semaphores) are modelled by explicit state or by
abstract outcome streams; values the Python runtime computes (floats, dict
lookups, truthiness) are modelled with `Rat`, association lists and `Option`.
-/

namespace CyberdropDl

/-! ### Rate-limit fabric (`managers/client_manager.py`) -/

/-- An `aiolimiter.AsyncLimiter(max_rate, time_period)` token bucket, identified
by its construction arguments. -/
structure AsyncLimiter where
  maxRate : ℚ
  timePeriod : ℚ
deriving DecidableEq, Repr

/-- `ClientManager.request_limiters`: the per-domain request token buckets
(client_manager.py lines 75-83). -/
def request_limiters : List (String × AsyncLimiter) :=
  [("bunkrr", ⟨5, 1⟩), ("cyberdrop", ⟨5, 1⟩), ("coomer", ⟨1, 1⟩),
   ("kemono", ⟨1, 1⟩), ("pixeldrain", ⟨10, 1⟩), ("gofile", ⟨100, 60⟩),
   ("other", ⟨25, 1⟩)]

/-- `ClientManager.download_spacer`: per-domain pre-download sleep seconds
(client_manager.py lines 85-93). -/
def download_spacer : List (String × ℚ) :=
  [("bunkr", 1/2), ("bunkrr", 1/2), ("cyberdrop", 0), ("cyberfile", 0),
   ("pixeldrain", 0), ("coomer", 1/2), ("kemono", 1/2)]

/-- The value a Python dict `.get(key, default)` produces, over an association
list model of the dict. -/
def dictGet {α : Type} (table : List (String × α)) (key : String) (default : α) : α :=
  (List.lookup key table).getD default

/-- `ClientManager.get_request_limiter` (client_manager.py lines 115-118),
translated exactly as written: it computes `default = request_limiters["other"]`
but then returns `self.download_spacer.get(domain, default)`, so the result is
either a spacer float (`Sum.inl`) or the "other" limiter (`Sum.inr`). -/
def get_request_limiter (domain : String) : Sum ℚ AsyncLimiter :=
  let default : AsyncLimiter := (List.lookup "other" request_limiters).getD ⟨25, 1⟩
  match List.lookup domain download_spacer with
  | some spacer => Sum.inl spacer
  | none => Sum.inr default

/-- The behaviour the spec ascribes to `get_request_limiter`: look the domain up
in `request_limiters`, falling back to the "other" bucket. -/
def claimed_request_limiter (domain : String) : Sum ℚ AsyncLimiter :=
  Sum.inr (dictGet request_limiters domain ((List.lookup "other" request_limiters).getD ⟨25, 1⟩))

/-- `ClientManager.get_download_spacer` (client_manager.py lines 111-113). -/
def get_download_spacer (key : String) : ℚ :=
  dictGet download_spacer key (1/10)

/-! ### HLS segment-line parsing (`downloader/downloader.py`)

Python's string primitives `str.splitlines`, `str.strip` and `str.startswith`
are embedded over `List Char` (only `\n` line breaks are modelled; an m3u8
index is joined with `\n`). -/

/-- The ASCII whitespace characters `str.strip` removes. -/
def isPyWhitespace (c : Char) : Bool :=
  c = ' ' ∨ c = '\t' ∨ c = '\n' ∨ c = '\r'

/-- Python `str.strip()`: drop leading and trailing whitespace. -/
def pyStrip (cs : List Char) : List Char :=
  ((cs.dropWhile isPyWhitespace).reverse.dropWhile isPyWhitespace).reverse

/-- Split a character list at every `\n`, keeping a trailing empty piece. -/
def pySplitOnNl : List Char → List (List Char)
  | [] => [[]]
  | c :: rest =>
    let r := pySplitOnNl rest
    if c = '\n' then [] :: r
    else
      match r with
      | [] => [[c]]
      | line :: more => (c :: line) :: more

/-- Python `str.splitlines()` (for `\n` line breaks): like splitting on `\n`
but producing no piece after a trailing line break, and `[]` on the empty
string. -/
def pySplitlines (cs : List Char) : List (List Char) :=
  if cs = [] then []
  else if cs.getLast? = some '\n' then (pySplitOnNl cs).dropLast
  else pySplitOnNl cs

/-- Python `s.startswith("#")`. -/
def pyStartsWithHash : List Char → Bool
  | [] => false
  | c :: _ => c = '#'

/-- `get_valid_segment_lines` (downloader.py lines 271-275), translated exactly
as written: Python keeps the stripped line when
`segment_name or not segment_name.startswith("#")`, i.e. when the stripped
line is non-empty OR does not start with `#`. -/
def get_valid_segment_lines (m3u8Content : String) : List String :=
  (pySplitlines m3u8Content.toList).filterMap fun line =>
    let segmentName := pyStrip line
    if segmentName ≠ [] ∨ ¬ pyStartsWithHash segmentName then
      some (String.mk segmentName)
    else none

/-- The filter the spec says was intended: keep the stripped line when it is
non-empty AND does not start with `#`. -/
def claimed_valid_segment_lines (m3u8Content : String) : List String :=
  (pySplitlines m3u8Content.toList).filterMap fun line =>
    let segmentName := pyStrip line
    if segmentName ≠ [] ∧ ¬ pyStartsWithHash segmentName then
      some (String.mk segmentName)
    else none

/-! ### The `retry` wrapper (`downloader/downloader.py` lines 42-73) -/

/-- A `DownloadError.status`: Python stores either an HTTP-like integer or a
free-form string (e.g. "HLS Seg Error"). -/
inductive ErrStatus where
  | num (n : Nat)
  | str (s : String)
deriving DecidableEq, Repr

/-- A caught `DownloadError`, as seen by the `retry` wrapper. -/
structure CaughtDownloadError where
  status : ErrStatus
  retryFlag : Bool
deriving DecidableEq, Repr

/-- The configuration the `retry` wrapper reads. -/
structure RetryConfig where
  downloadAttempts : Nat
  disableDownloadAttemptLimit : Bool
deriving DecidableEq, Repr

/-- What one iteration of the `retry` loop does with a caught `DownloadError`. -/
inductive RetryAction where
  | reraise
  | continueLoop
deriving DecidableEq, Repr

/-- One iteration of the `while True` loop of the `retry` wrapper
(downloader.py lines 48-71) after `func` raised `DownloadError e`, given the
item's `current_attempt` before the iteration.  Returns the action taken and
the value of `current_attempt` afterwards.  `if not e.retry: raise` re-raises
without touching the counter; otherwise `max_attempts` is `download_attempts`
(or 1 under `disable_download_attempt_limit`), the counter is incremented when
`e.status != 999`, and the loop continues only when
`current_attempt < max_attempts`. -/
def retryStep (cfg : RetryConfig) (currentAttempt : Nat) (e : CaughtDownloadError) :
    RetryAction × Nat :=
  if ¬ e.retryFlag then (RetryAction.reraise, currentAttempt)
  else
    let maxAttempts := if cfg.disableDownloadAttemptLimit then 1 else cfg.downloadAttempts
    let currentAttempt' := if e.status ≠ ErrStatus.num 999 then currentAttempt + 1 else currentAttempt
    if currentAttempt' < maxAttempts then (RetryAction.continueLoop, currentAttempt')
    else (RetryAction.reraise, currentAttempt')

/-! ### HLS segment success counting (`downloader/downloader.py` lines 290-318) -/

/-- The Python value returned by the coroutine `download_segment`
(downloader.py lines 304-310).  Its body awaits `self.download(seg_media_item)`
and discards the result, adds the segment path to `segment_paths`, awaits
`asyncio.to_thread(seg_media_item.complete_file.is_file)` and discards that
result too; having no `return` statement, the coroutine returns Python `None`
(`Option.none` here) whatever the download result and whatever `is_file` said. -/
def download_segment_return (downloadResult : Bool) (segmentOnDisk : Bool) : Option Bool :=
  none

/-- Python truthiness of an `Option Bool` value (`None` is falsy). -/
def pyTruthy : Option Bool → Bool
  | none => false
  | some b => b

/-- `n_successful = sum(1 for r in results if r)` (downloader.py line 314) over
the gathered `download_segment` results, one per segment; each segment is given
by the pair (its `download` call's boolean result, whether its completed file is
on disk afterwards). -/
def hls_n_successful (segments : List (Bool × Bool)) : Nat :=
  (segments.map fun s => download_segment_return s.1 s.2).countP fun r => pyTruthy r

/-- Whether `download_hls` raises `DownloadError("HLS Seg Error")`
(downloader.py lines 316-318): exactly when `n_successful != n_segments`. -/
def download_hls_raises_seg_error (segments : List (Bool × Bool)) : Bool :=
  hls_n_successful segments != segments.length

/-- The condition the spec states for raising `DownloadError("HLS Seg Error")`:
the count of successful segment download tasks differs from the total. -/
def claimed_hls_seg_error (segments : List (Bool × Bool)) : Bool :=
  (segments.countP fun s => s.1) != segments.length

/-! ### `Downloader.run` / `was_processed_before` (`downloader/downloader.py`) -/

/-- The outcome of one `Downloader.run` call. -/
structure RunOutcome where
  returned : Bool
  downloadStarted : Bool
  processedAfter : List String
deriving DecidableEq, Repr

/-- `Downloader.run` (downloader.py lines 187-198) together with the part of
its `@with_limiter` context that touches `processed_items`: `limiter`
(lines 159-177) executes `self.processed_items.add(media_item.url.path)` before
yielding to the body, and the body first tests `was_processed_before`
(lines 179-185): `url.path in processed_items and not ignore_history`.  State
is the set `processed_items`, modelled as a duplicate-free list. -/
def run_model (processed : List String) (urlPath : String) (ignoreHistory : Bool)
    (downloadResult : Bool) : RunOutcome :=
  let processed' := if urlPath ∈ processed then processed else processed ++ [urlPath]
  if urlPath ∈ processed' ∧ ¬ ignoreHistory then ⟨false, false, processed'⟩
  else ⟨downloadResult, true, processed'⟩

/-! ### `check_http_status` (`managers/client_manager.py` lines 183-221) -/

/-- `DOWNLOAD_ERROR_ETAGS` (client_manager.py lines 34-38). -/
def DOWNLOAD_ERROR_ETAGS : List (String × String) :=
  [("d835884373f4d6c8f24742ceabe74946", "Imgur image has been removed"),
   ("65b7753c-528a", "SC Scrape Image"),
   ("5c4fb843-ece", "PixHost Removed Image")]

/-- The data of an `aiohttp.ClientResponse` that `check_http_status` inspects.
The BeautifulSoup challenge test `check_ddos_guard(soup) or
check_cloudflare(soup)` on the parsed response text is abstracted into the
boolean `isChallenge`; `text` is `None` when reading raised
`UnicodeDecodeError`; `jsonDataError` is `data["error"]` when the body parsed
as JSON with a dict `data` containing `"error"` (else `None`). -/
structure HttpResponseModel where
  status : Nat
  etag : Option String
  isGofileOrImgur : Bool
  jsonStatusField : Option String
  jsonDataError : Option String
  text : Option String
  isChallenge : Bool
  hasContentType : Bool
deriving DecidableEq, Repr

/-- How a `check_http_status` call ends. -/
inductive CheckOutcome where
  | ok
  | downloadErr (status : Nat) (message : Option String)
  | scrapeErr (status : Option String) (message : Option String)
  | ddosGuardErr
deriving DecidableEq, Repr

/-- The dead-content ETag lookup of client_manager.py lines 191-194: only
consulted when `download` is set. -/
def etagDeadLookup (r : HttpResponseModel) (download : Bool) : Option String :=
  if download then r.etag.bind fun t => List.lookup t DOWNLOAD_ERROR_ETAGS else none

/-- Whether the challenge branch of client_manager.py lines 214-217 fires:
`response_text` must be truthy (present and non-empty) and the parsed soup must
match a DDoS-Guard or Cloudflare marker. -/
def challengeBranch (r : HttpResponseModel) : Bool :=
  (match r.text with
   | some t => t ≠ ""
   | none => false) && r.isChallenge

/-- `ClientManager.check_http_status` (client_manager.py lines 183-221).
Notes on fidelity: the `2xx` test in the source is
`HTTPStatus.OK <= status < HTTPStatus.BAD_REQUEST`, i.e. `200 ≤ status < 400`;
in the gofile/imgur JSON branch the guard
`status_str and isinstance(status, str)` tests the *integer* `status`, so the
`ScrapeError(404)` branch is unreachable and only the
`data`-with-`"error"` branch can raise; the teapot status
`CustomHTTPStatus.IM_A_TEAPOT` is 418. -/
def check_http_status (r : HttpResponseModel) (download : Bool) : CheckOutcome :=
  match etagDeadLookup r download with
  | some message => CheckOutcome.downloadErr 404 (some message)
  | none =>
    if 200 ≤ r.status ∧ r.status < 400 then CheckOutcome.ok
    else
      match (if r.isGofileOrImgur then r.jsonDataError else none) with
      | some err => CheckOutcome.scrapeErr r.jsonStatusField (some err)
      | none =>
        if challengeBranch r then CheckOutcome.ddosGuardErr
        else if r.hasContentType then CheckOutcome.downloadErr r.status none
        else CheckOutcome.downloadErr 418 (some "No content-type in response header")

/-! ### Storage monitor (`managers/storage_manager.py`) -/

/-- A filesystem path, as its list of `Path.parts`. -/
def FsPath := List String
deriving instance DecidableEq, Repr for FsPath

instance : Membership FsPath (List FsPath) := inferInstanceAs (Membership (List String) _)

/-- `mount in folder.parents or mount == folder` (storage_manager.py line 108):
the mount's parts are a (possibly equal) prefix of the folder's parts. -/
def mountMatches (mount folder : FsPath) : Bool :=
  List.isPrefixOf mount folder

/-- `get_mount_point` (storage_manager.py lines 106-112): among the available
mountpoints that are ancestors of (or equal to) the folder, pick the one with
the most parts (`max(possible_mountpoints, key=lambda path: len(path.parts))`,
which keeps the first maximal element); `None` when no mountpoint matches. -/
def get_mount_point (mounts : List FsPath) (folder : FsPath) : Option FsPath :=
  let possible := mounts.filter fun m => mountMatches m folder
  possible.foldl
    (fun acc m =>
      match acc with
      | none => some m
      | some best => if List.length best < List.length m then some m else acc)
    none

/-- `StorageManager._has_sufficient_space` (storage_manager.py lines 66-80):
resolve the folder's mount; `False` when no mount is found; otherwise compare
the recorded free bytes of the mount (queried on first use, then maintained by
the polling loop — modelled by the snapshot function `freeSpace`) strictly
against `required_free_space`: the source returns
`self._free_space[mount] > required_free_space`. -/
def has_sufficient_space (mounts : List FsPath) (folder : FsPath)
    (freeSpace : FsPath → Nat) (requiredFreeSpace : Nat) : Bool :=
  match get_mount_point mounts folder with
  | none => false
  | some mount => requiredFreeSpace < freeSpace mount

/-- The observable outcome of `StorageManager.check_free_space`: whether the
RUNNING latch was cleared (a pause happened) and whether the call returned
normally (`ok = false` means `InsufficientFreeSpaceError` was raised). -/
structure CheckFreeSpaceOutcome where
  paused : Bool
  ok : Bool
deriving DecidableEq, Repr

/-- `StorageManager.check_free_space` (storage_manager.py lines 42-50), over
the sufficiency of the two `_has_sufficient_space` samples it can take: the
initial one, and — when the first fails and `_pause_if_no_free_space` is on —
a second one after the RUNNING latch is set again (the recursive call passes
`no_pause=True`, so no second pause can happen and a second failure raises). -/
def check_free_space (pauseIfNoFreeSpace : Bool) (sufficientFirst sufficientSecond : Bool) :
    CheckFreeSpaceOutcome :=
  if sufficientFirst then ⟨false, true⟩
  else if pauseIfNoFreeSpace then ⟨true, sufficientSecond⟩
  else ⟨false, false⟩

/-! ### Dedup cleanup (`clients/hash_client.py`) -/

/-- `Hashing` mode (utils/data_enums_classes/hash.py): OFF / IN_PLACE /
POST_DOWNLOAD. -/
inductive Hashing where
  | off
  | inPlace
  | postDownload
deriving DecidableEq, Repr

/-- The settings `cleanup_dupes_after_download` reads. -/
structure DedupeSettings where
  hashing : Hashing
  autoDedupe : Bool
  ignoreHistory : Bool
deriving DecidableEq, Repr

/-- The deletions one `(hash, size)` group contributes in `final_dupe_cleanup`
(hash_client.py lines 145-162): `all_matches` is the ordered list of paths the
durable hash table returns for that `(hash, size, xxh128)`; the loop walks
`all_matches[1:]` and skips entries for which `file.is_file()` is false, then
calls `delete_file` on the rest. -/
def group_deletions (allMatches : List String) (onDisk : String → Bool) : List String :=
  (allMatches.drop 1).filter onDisk

/-- `final_dupe_cleanup` (hash_client.py lines 145-162) as the list of paths it
deletes, given the hash-table result list of every `(hash, size)` group of
`final_dict` and the on-disk predicate. -/
def final_dupe_cleanup (dbGroups : List (List String)) (onDisk : String → Bool) :
    List String :=
  dbGroups.flatMap fun g => group_deletions g onDisk

/-- `cleanup_dupes_after_download` (hash_client.py lines 133-143) as the list
of paths deleted in a run: the three early returns (`hashing == Hashing.OFF`,
`not auto_dedupe`, `ignore_history`) delete nothing; otherwise
`final_dupe_cleanup` runs on the groups of the hashes dict. -/
def cleanup_dupes_after_download (settings : DedupeSettings)
    (dbGroups : List (List String)) (onDisk : String → Bool) : List String :=
  if settings.hashing = Hashing.off then []
  else if ¬ settings.autoDedupe then []
  else if settings.ignoreHistory then []
  else final_dupe_cleanup dbGroups onDisk

/-! ### `ScraperClient.get_soup` challenge path (`clients/scraper_client.py`
lines 56-101, with `Flaresolverr.get` of `managers/flaresolverr.py`) -/

/-- The outcome of one HTTP GET as classified by `check_http_status`:
the status check passed and a soup is available, the status check raised
`DDOSGuardError` (a challenge page), or it raised some other error which
`get_soup` propagates. -/
inductive FetchOutcome where
  | ok
  | challenge
  | otherError
deriving DecidableEq, Repr

/-- The outcome of one `flaresolverr.get` call: the solver raised
(`DDOSGuardError`: not configured, bad status, invalid response), or it
returned a soup which either still matches the challenge markers
(`check_ddos_guard(soup) or check_cloudflare(soup)`) or not. -/
inductive SolverOutcome where
  | fail
  | solved (stillChallenge : Bool)
deriving DecidableEq, Repr

/-- The environment a `get_soup` call runs against: the outcome of its n-th
HTTP GET and of its n-th solver consultation (0-based, counted across the
whole recursive call tree). -/
structure GetSoupWorld where
  fetch : Nat → FetchOutcome
  solver : Nat → SolverOutcome

/-- Where the soup a successful `get_soup` call returns came from. -/
inductive SoupSource where
  | direct (fetchIdx : Nat)
  | fromSolver (solverIdx : Nat)
deriving DecidableEq, Repr

/-- How a `get_soup` call ends. -/
inductive GetSoupResult where
  | soup (src : SoupSource)
  | ddosGuardError
  | otherError
deriving DecidableEq, Repr

/-- The observable trace of a `get_soup` call: its result, the
`cache_disabled` flag of every HTTP GET it performed (in order), the number of
solver consultations, and the number of response-cache evictions
(`request_cache.delete_url(url)`). -/
structure GetSoupTrace where
  result : GetSoupResult
  cacheDisabledFlags : List Bool
  numSolverCalls : Nat
  numCacheEvictions : Nat
deriving DecidableEq, Repr

/-- `ScraperClient.get_soup` (scraper_client.py lines 56-101) called with
`retry=False`.  The body: perform the GET under
`cache_control_manager(disabled=cache_disabled)`; if `check_http_status`
raises `DDOSGuardError`, evict the URL from the response cache and call
`flaresolverr.get`; if the solver's soup still matches a challenge, raise
`DDOSGuardError("Unable to access website with flaresolverr cookies")` (no
further recursion since `retry` is false); a clean solver soup is returned. -/
def get_soup_noretry_model (w : GetSoupWorld) (cacheDisabled : Bool)
    (fetchIdx solverIdx : Nat) : GetSoupTrace :=
  match w.fetch fetchIdx with
  | FetchOutcome.ok => ⟨GetSoupResult.soup (SoupSource.direct fetchIdx), [cacheDisabled], 0, 0⟩
  | FetchOutcome.otherError => ⟨GetSoupResult.otherError, [cacheDisabled], 0, 0⟩
  | FetchOutcome.challenge =>
    match w.solver solverIdx with
    | SolverOutcome.fail => ⟨GetSoupResult.ddosGuardError, [cacheDisabled], 1, 1⟩
    | SolverOutcome.solved stillChallenge =>
      if stillChallenge then ⟨GetSoupResult.ddosGuardError, [cacheDisabled], 1, 1⟩
      else ⟨GetSoupResult.soup (SoupSource.fromSolver solverIdx), [cacheDisabled], 1, 1⟩

/-- `ScraperClient.get_soup` (scraper_client.py lines 56-101) called with the
default `retry=True`: same body, except that on a still-challenged solver soup
it performs the single recursive call
`get_soup(..., retry=False, cache_disabled=True)` and returns its outcome. -/
def get_soup_model (w : GetSoupWorld) (cacheDisabled : Bool)
    (fetchIdx solverIdx : Nat) : GetSoupTrace :=
  match w.fetch fetchIdx with
  | FetchOutcome.ok => ⟨GetSoupResult.soup (SoupSource.direct fetchIdx), [cacheDisabled], 0, 0⟩
  | FetchOutcome.otherError => ⟨GetSoupResult.otherError, [cacheDisabled], 0, 0⟩
  | FetchOutcome.challenge =>
    match w.solver solverIdx with
    | SolverOutcome.fail => ⟨GetSoupResult.ddosGuardError, [cacheDisabled], 1, 1⟩
    | SolverOutcome.solved stillChallenge =>
      if stillChallenge then
        let rest := get_soup_noretry_model w true (fetchIdx + 1) (solverIdx + 1)
        ⟨rest.result, cacheDisabled :: rest.cacheDisabledFlags,
         1 + rest.numSolverCalls, 1 + rest.numCacheEvictions⟩
      else ⟨GetSoupResult.soup (SoupSource.fromSolver solverIdx), [cacheDisabled], 1, 1⟩

/-! ## Claims -/

/-- Claim C1: the claim says `get_request_limiter(domain)` returns the
`request_limiters` entry registered for the domain, falling back to "other".
The code instead returns `self.download_spacer.get(domain, default)`: for
"bunkrr" it produces the spacer float 0.5 rather than the registered
`AsyncLimiter(5, 1)`, and for "gofile" (absent from `download_spacer`) it
produces the "other" limiter rather than the registered `AsyncLimiter(100, 60)`,
so `limiter(domain)` cannot acquire the per-domain bucket the claim names. -/
theorem c1_get_request_limiter_code_eval :
    get_request_limiter "bunkrr" = Sum.inl (1/2 : ℚ) ∧
    claimed_request_limiter "bunkrr" = Sum.inr ⟨5, 1⟩ ∧
    get_request_limiter "gofile" = Sum.inr ⟨25, 1⟩ ∧
    claimed_request_limiter "gofile" = Sum.inr ⟨100, 60⟩ ∧
    get_request_limiter "bunkrr" ≠ claimed_request_limiter "bunkrr" ∧
    get_request_limiter "gofile" ≠ claimed_request_limiter "gofile" := by
  refine ⟨rfl, rfl, rfl, rfl, by decide, by decide⟩

/-- Claim C2: the claim says `download_hls` raises
`DownloadError("HLS Seg Error")` exactly when the successful segment count
differs from the total. In the code every gathered `download_segment`
coroutine returns `None` (its `download` result and its final `is_file` result
are both discarded), so `n_successful` is always 0 and the error is raised even
for a single segment whose download task succeeds and whose file is on disk. -/
theorem c2_download_hls_code_eval :
    download_hls_raises_seg_error [(true, true)] = true ∧
    claimed_hls_seg_error [(true, true)] = false ∧
    hls_n_successful [(true, true), (true, true)] = 0 := by
  decide

/-- Claim C3: the claim says `get_valid_segment_lines` keeps exactly the
stripped lines that are non-empty and do not begin with "#". The code's filter
`segment_name or not segment_name.startswith("#")` is satisfied by every line
(non-empty lines by the first disjunct, empty ones by the second), so comment
lines and blank lines are kept as well, unlike the intended filter. -/
theorem c3_get_valid_segment_lines_code_eval :
    get_valid_segment_lines "#EXTM3U\n\nseg1.ts" = ["#EXTM3U", "", "seg1.ts"] ∧
    claimed_valid_segment_lines "#EXTM3U\n\nseg1.ts" = ["seg1.ts"] := by
  constructor <;> decide

/-- Claim C5: in the `retry` wrapper, for a caught `DownloadError` with
`retry=True` the item's `current_attempt` is incremented exactly when the
error's status is not 999, and the error is re-raised exactly when the updated
`current_attempt` has reached the ceiling (`download_attempts`, or 1 when
`disable_download_attempt_limit` is set). -/
theorem c5_retry_step (cfg : RetryConfig) (attempt : Nat) (e : CaughtDownloadError)
    (hretry : e.retryFlag = true) :
    ((retryStep cfg attempt e).2 = attempt + 1 ↔ e.status ≠ ErrStatus.num 999) ∧
    (e.status = ErrStatus.num 999 → (retryStep cfg attempt e).2 = attempt) ∧
    ((retryStep cfg attempt e).1 = RetryAction.reraise ↔
      (if cfg.disableDownloadAttemptLimit then 1 else cfg.downloadAttempts) ≤
        (retryStep cfg attempt e).2) := by
  have h0 : retryStep cfg attempt e =
      if (if e.status = ErrStatus.num 999 then attempt else attempt + 1) <
          (if cfg.disableDownloadAttemptLimit then 1 else cfg.downloadAttempts) then
        (RetryAction.continueLoop, if e.status = ErrStatus.num 999 then attempt else attempt + 1)
      else (RetryAction.reraise, if e.status = ErrStatus.num 999 then attempt else attempt + 1) := by
    unfold retryStep
    rw [hretry]
    by_cases hst : e.status = ErrStatus.num 999 <;> simp [hst]
  rw [h0]
  by_cases hd : cfg.disableDownloadAttemptLimit <;>
    by_cases hst : e.status = ErrStatus.num 999 <;>
    simp only [hd, hst, if_true, if_false, ite_true, ite_false] <;>
    split_ifs with hlt <;>
    simp [hst] <;>
    omega

/-- Witness for C5: a concrete retry-eligible error (status 500, `retry=True`)
with `current_attempt = 2` against `download_attempts = 3` and no disable
flag. -/
theorem c5_retry_step_witness :
    (CaughtDownloadError.mk (ErrStatus.num 500) true).retryFlag = true ∧
    (((retryStep ⟨3, false⟩ 2 ⟨ErrStatus.num 500, true⟩).2 = 2 + 1 ↔
        (ErrStatus.num 500 : ErrStatus) ≠ ErrStatus.num 999) ∧
      ((ErrStatus.num 500 : ErrStatus) = ErrStatus.num 999 →
        (retryStep ⟨3, false⟩ 2 ⟨ErrStatus.num 500, true⟩).2 = 2) ∧
      ((retryStep ⟨3, false⟩ 2 ⟨ErrStatus.num 500, true⟩).1 = RetryAction.reraise ↔
        (if (false : Bool) then 1 else 3) ≤ (retryStep ⟨3, false⟩ 2 ⟨ErrStatus.num 500, true⟩).2)) :=
  ⟨rfl, c5_retry_step ⟨3, false⟩ 2 ⟨ErrStatus.num 500, true⟩ rfl⟩

/-- A concrete redirect response: status 301, no ETag, a plain host, no JSON
body, undecodable text, not a challenge, Content-Type present. -/
def response301 : HttpResponseModel :=
  ⟨301, none, false, none, none, none, false, true⟩

/-- Counterexample to C4 as stated: `check_http_status` on a 301 response with
no dead-content ETag returns normally, although 301 is not a 2xx status — the
source accepts the whole range `HTTPStatus.OK <= status < HTTPStatus.BAD_REQUEST`
(200..399), not only 2xx. -/
theorem c4_counterexample :
    check_http_status response301 false = CheckOutcome.ok ∧
    ¬ (200 ≤ response301.status ∧ response301.status < 300) := by
  decide

/-- Claim C4 (amended): for a response whose ETag does not match the
known-dead-content table, `check_http_status` returns normally iff
`200 ≤ status < 400` (2xx and 3xx); every response outside that range that is
not a challenge page and not a gofile/imgur JSON-error response raises
`DownloadError` carrying the response status when a Content-Type header is
present, and status 418 with message "No content-type in response header" when
it is absent. -/
theorem c4_check_http_status_amended (r : HttpResponseModel) (download : Bool)
    (hEtag : etagDeadLookup r download = none) :
    (check_http_status r download = CheckOutcome.ok ↔ 200 ≤ r.status ∧ r.status < 400) ∧
    (¬ (200 ≤ r.status ∧ r.status < 400) → challengeBranch r = false →
      (if r.isGofileOrImgur then r.jsonDataError else none) = none →
      check_http_status r download =
        if r.hasContentType then CheckOutcome.downloadErr r.status none
        else CheckOutcome.downloadErr 418 (some "No content-type in response header")) := by
  unfold check_http_status
  rw [hEtag]
  constructor
  · by_cases hs : 200 ≤ r.status ∧ r.status < 400
    · simp [hs]
    · simp only [hs, if_false, iff_false]
      intro hcontra
      rcases hj : (if r.isGofileOrImgur then r.jsonDataError else none) with _ | err <;>
        rw [hj] at hcontra <;>
        [skip; exact absurd hcontra (by simp)]
      by_cases hc : challengeBranch r = true <;>
        by_cases hct : r.hasContentType = true <;>
        simp [hc, hct] at hcontra
  · intro hs hch hj
    rw [hj]
    simp only [if_neg hs]
    rw [hch]
    by_cases hct : r.hasContentType = true <;> simp [hct]

/-- A concrete 404 response with no Content-Type header. -/
def response404 : HttpResponseModel :=
  ⟨404, none, false, none, none, some "not found page", false, false⟩

/-- Witness for the amended C4: the 404 no-Content-Type response satisfies the
hypothesis and the conclusion at that input. -/
theorem c4_amended_witness :
    etagDeadLookup response404 true = none ∧
    ((check_http_status response404 true = CheckOutcome.ok ↔
        200 ≤ response404.status ∧ response404.status < 400) ∧
      (¬ (200 ≤ response404.status ∧ response404.status < 400) →
        challengeBranch response404 = false →
        (if response404.isGofileOrImgur then response404.jsonDataError else none) = none →
        check_http_status response404 true =
          if response404.hasContentType then CheckOutcome.downloadErr response404.status none
          else CheckOutcome.downloadErr 418 (some "No content-type in response header"))) :=
  ⟨rfl, c4_check_http_status_amended response404 true rfl⟩

/-- Counterexample to C6 as stated: with the root mount known, recorded free
bytes exactly equal to `required_free_space` (100 = 100) and the pause policy
off, `_has_sufficient_space` is false (the source compares with strict `>`)
and `check_free_space` raises `InsufficientFreeSpaceError` instead of
returning normally as the claim demands at equality. -/
theorem c6_counterexample :
    has_sufficient_space [["/"]] ["/", "downloads"] (fun _ => 100) 100 = false ∧
    (100 : Nat) ≥ 100 ∧
    check_free_space false (has_sufficient_space [["/"]] ["/", "downloads"] (fun _ => 100) 100)
        (has_sufficient_space [["/"]] ["/", "downloads"] (fun _ => 100) 100) =
      ⟨false, false⟩ := by
  refine ⟨by decide, by decide, by decide⟩

/-- Claim C6 (amended): for a media item whose download folder resolves to a
known mount, `check_free_space` returns normally without pausing iff the
recorded free bytes of that mount are strictly greater than
`required_free_space` (at exact equality the space counts as insufficient);
`InsufficientFreeSpaceError` is raised iff the free bytes are not strictly
above the threshold and either the pause-on-full policy is off or the second
check after un-pausing also finds the free bytes not strictly above it. -/
theorem c6_check_free_space_amended (mounts : List FsPath) (folder : FsPath)
    (freeFirst freeSecond : FsPath → Nat) (required : Nat) (pausePolicy : Bool)
    (mount : FsPath) (hmount : get_mount_point mounts folder = some mount) :
    (check_free_space pausePolicy (has_sufficient_space mounts folder freeFirst required)
        (has_sufficient_space mounts folder freeSecond required) =
      ⟨false, true⟩ ↔ required < freeFirst mount) ∧
    ((check_free_space pausePolicy (has_sufficient_space mounts folder freeFirst required)
        (has_sufficient_space mounts folder freeSecond required)).ok = false ↔
      freeFirst mount ≤ required ∧
        (pausePolicy = false ∨ freeSecond mount ≤ required)) := by
  have h1 : has_sufficient_space mounts folder freeFirst required =
      decide (required < freeFirst mount) := by
    unfold has_sufficient_space
    rw [hmount]
  have h2 : has_sufficient_space mounts folder freeSecond required =
      decide (required < freeSecond mount) := by
    unfold has_sufficient_space
    rw [hmount]
  rw [h1, h2]
  unfold check_free_space
  by_cases ha : required < freeFirst mount <;>
    by_cases hb : required < freeSecond mount <;>
    cases pausePolicy <;>
    simp [ha, hb] <;>
    omega

/-- Witness for the amended C6: root mount, folder under it, 150 free bytes
against a 100-byte requirement, pause policy off. -/
theorem c6_amended_witness :
    get_mount_point [["/"]] ["/", "x"] = some ["/"] ∧
    ((check_free_space false (has_sufficient_space [["/"]] ["/", "x"] (fun _ => 150) 100)
        (has_sufficient_space [["/"]] ["/", "x"] (fun _ => 150) 100) =
      ⟨false, true⟩ ↔ 100 < (fun _ : FsPath => 150) ["/"]) ∧
    ((check_free_space false (has_sufficient_space [["/"]] ["/", "x"] (fun _ => 150) 100)
        (has_sufficient_space [["/"]] ["/", "x"] (fun _ => 150) 100)).ok = false ↔
      (fun _ : FsPath => 150) ["/"] ≤ 100 ∧
        ((false : Bool) = false ∨ (fun _ : FsPath => 150) ["/"] ≤ 100))) :=
  ⟨by decide, c6_check_free_space_amended [["/"]] ["/", "x"] (fun _ => 150) (fun _ => 150)
    100 false ["/"] (by decide)⟩

/-- Claim C7: a path is deleted by `cleanup_dupes_after_download` only when
hashing is not OFF, `auto_dedupe` is on and `ignore_history` is off; and any
deleted path still exists on disk and is a non-first element of the ordered
path list the durable hash store returned for some `(hash, size)` group — the
first path of each group is never deleted by that group's pass. -/
theorem c7_cleanup_dupes (settings : DedupeSettings) (dbGroups : List (List String))
    (onDisk : String → Bool) (p : String)
    (hp : p ∈ cleanup_dupes_after_download settings dbGroups onDisk) :
    (settings.hashing ≠ Hashing.off ∧ settings.autoDedupe = true ∧
      settings.ignoreHistory = false) ∧
    onDisk p = true ∧
    ∃ g ∈ dbGroups, p ∈ List.drop 1 g := by
  unfold cleanup_dupes_after_download at hp
  by_cases h1 : settings.hashing = Hashing.off
  · rw [if_pos h1] at hp
    exact absurd hp (List.not_mem_nil p)
  rw [if_neg h1] at hp
  by_cases h2 : settings.autoDedupe
  · rw [if_neg (by simp [h2])] at hp
    by_cases h3 : settings.ignoreHistory
    · rw [if_pos h3] at hp
      exact absurd hp (List.not_mem_nil p)
    · rw [if_neg h3] at hp
      unfold final_dupe_cleanup at hp
      rw [List.mem_flatMap] at hp
      obtain ⟨g, hg, hpg⟩ := hp
      unfold group_deletions at hpg
      rw [List.mem_filter] at hpg
      exact ⟨⟨h1, h2, by simpa using h3⟩, hpg.2, g, hg, hpg.1⟩
  · rw [if_pos (by simpa using h2)] at hp
    exact absurd hp (List.not_mem_nil p)

/-- Witness for C7: with hashing POST_DOWNLOAD, `auto_dedupe` on,
`ignore_history` off, one group `["a", "b", "c"]` and every path on disk,
"b" is deleted and the conclusion holds at that input. -/
theorem c7_cleanup_dupes_witness :
    "b" ∈ cleanup_dupes_after_download ⟨Hashing.postDownload, true, false⟩
      [["a", "b", "c"]] (fun _ => true) ∧
    (((DedupeSettings.mk Hashing.postDownload true false).hashing ≠ Hashing.off ∧
        (DedupeSettings.mk Hashing.postDownload true false).autoDedupe = true ∧
        (DedupeSettings.mk Hashing.postDownload true false).ignoreHistory = false) ∧
      (fun _ : String => true) "b" = true ∧
      ∃ g ∈ [["a", "b", "c"]], "b" ∈ List.drop 1 g) :=
  ⟨by decide, c7_cleanup_dupes ⟨Hashing.postDownload, true, false⟩ [["a", "b", "c"]]
    (fun _ => true) "b" (by decide)⟩

/-- Claim C8: when the first GET of a `get_soup` call (entered with
`retry=True`, `cache_disabled=False`) hits a challenge, the cache is evicted
once per solver consultation (the eviction precedes each consultation), the
solver is consulted at least once and at most twice in the whole call tree, at
most one retried GET happens and it runs with `cache_disabled=True`; and when
the retried call's GET again hits a challenge and its own solver response
still contains a challenge, the call ends in `DDOSGuardError` after exactly
two solver consultations and two GETs — the solver is never consulted a third
time. -/
theorem c8_get_soup_challenge (w : GetSoupWorld)
    (hch : w.fetch 0 = FetchOutcome.challenge) :
    (1 ≤ (get_soup_model w false 0 0).numSolverCalls ∧
      (get_soup_model w false 0 0).numSolverCalls ≤ 2) ∧
    (get_soup_model w false 0 0).numCacheEvictions =
      (get_soup_model w false 0 0).numSolverCalls ∧
    ((get_soup_model w false 0 0).cacheDisabledFlags = [false] ∨
      (get_soup_model w false 0 0).cacheDisabledFlags = [false, true]) ∧
    (w.solver 0 = SolverOutcome.solved true → w.fetch 1 = FetchOutcome.challenge →
      w.solver 1 = SolverOutcome.solved true →
      (get_soup_model w false 0 0).result = GetSoupResult.ddosGuardError ∧
        (get_soup_model w false 0 0).numSolverCalls = 2 ∧
        (get_soup_model w false 0 0).cacheDisabledFlags = [false, true]) := by
  rcases hs0 : w.solver 0 with _ | b0
  · simp [get_soup_model, hch, hs0]
  · cases b0
    · simp [get_soup_model, hch, hs0]
    · rcases hf1 : w.fetch 1 with _ | _ | _
      · simp [get_soup_model, get_soup_noretry_model, hch, hs0, hf1]
      · rcases hs1 : w.solver 1 with _ | b1
        · simp [get_soup_model, get_soup_noretry_model, hch, hs0, hf1, hs1]
        · cases b1 <;>
            simp [get_soup_model, get_soup_noretry_model, hch, hs0, hf1, hs1]
      · simp [get_soup_model, get_soup_noretry_model, hch, hs0, hf1]

/-- A concrete `get_soup` environment in which every GET hits a challenge and
the solver always returns a soup that still matches the challenge markers. -/
def stubbornChallengeWorld : GetSoupWorld :=
  ⟨fun _ => FetchOutcome.challenge, fun _ => SolverOutcome.solved true⟩

/-- Witness for C8: in `stubbornChallengeWorld` the hypothesis holds and the
conclusion evaluates at that world. -/
theorem c8_get_soup_challenge_witness :
    stubbornChallengeWorld.fetch 0 = FetchOutcome.challenge ∧
    ((1 ≤ (get_soup_model stubbornChallengeWorld false 0 0).numSolverCalls ∧
      (get_soup_model stubbornChallengeWorld false 0 0).numSolverCalls ≤ 2) ∧
    (get_soup_model stubbornChallengeWorld false 0 0).numCacheEvictions =
      (get_soup_model stubbornChallengeWorld false 0 0).numSolverCalls ∧
    ((get_soup_model stubbornChallengeWorld false 0 0).cacheDisabledFlags = [false] ∨
      (get_soup_model stubbornChallengeWorld false 0 0).cacheDisabledFlags = [false, true]) ∧
    (stubbornChallengeWorld.solver 0 = SolverOutcome.solved true →
      stubbornChallengeWorld.fetch 1 = FetchOutcome.challenge →
      stubbornChallengeWorld.solver 1 = SolverOutcome.solved true →
      (get_soup_model stubbornChallengeWorld false 0 0).result =
          GetSoupResult.ddosGuardError ∧
        (get_soup_model stubbornChallengeWorld false 0 0).numSolverCalls = 2 ∧
        (get_soup_model stubbornChallengeWorld false 0 0).cacheDisabledFlags =
          [false, true])) :=
  ⟨rfl, c8_get_soup_challenge stubbornChallengeWorld rfl⟩

/-- Claim C9: when `get_mount_point` resolves no mount for the download folder
(e.g. a drive mounted after startup, since the available-mountpoint set is
cached at startup), `_has_sufficient_space` is false regardless of the free
bytes, so `check_free_space` pauses exactly when the pause-on-full policy is
on and in every case raises `InsufficientFreeSpaceError`. -/
theorem c9_unknown_mount (mounts : List FsPath) (folder : FsPath)
    (freeFirst freeSecond : FsPath → Nat) (required : Nat) (pausePolicy : Bool)
    (hnone : get_mount_point mounts folder = none) :
    has_sufficient_space mounts folder freeFirst required = false ∧
    check_free_space pausePolicy (has_sufficient_space mounts folder freeFirst required)
        (has_sufficient_space mounts folder freeSecond required) =
      ⟨pausePolicy, false⟩ := by
  have h1 : has_sufficient_space mounts folder freeFirst required = false := by
    unfold has_sufficient_space
    rw [hnone]
  have h2 : has_sufficient_space mounts folder freeSecond required = false := by
    unfold has_sufficient_space
    rw [hnone]
  refine ⟨h1, ?_⟩
  rw [h1, h2]
  cases pausePolicy <;> rfl

/-- Witness for C9: no mountpoint is known, plenty of free space is reported,
yet the check pauses (policy on) and raises. -/
theorem c9_unknown_mount_witness :
    get_mount_point [] ["/", "newdrive", "dl"] = none ∧
    (has_sufficient_space [] ["/", "newdrive", "dl"] (fun _ => 999999999) 100 = false ∧
      check_free_space true
          (has_sufficient_space [] ["/", "newdrive", "dl"] (fun _ => 999999999) 100)
          (has_sufficient_space [] ["/", "newdrive", "dl"] (fun _ => 999999999) 100) =
        ⟨true, false⟩) :=
  ⟨rfl, c9_unknown_mount [] ["/", "newdrive", "dl"] (fun _ => 999999999)
    (fun _ => 999999999) 100 true rfl⟩

/-- Claim C10: `Downloader.run` is idempotent per URL path within one run when
`ignore_history` is disabled: after any `run` call for some media item, a
later `run` on the same `Downloader` state for a media item with the same
`url.path` returns `False` and never reaches its `download` /
`download_hls` call, because `limiter` adds the path to `processed_items`
before the body consults `was_processed_before`. -/
theorem c10_run_idempotent (processed : List String) (urlPath : String) (d1 d2 : Bool) :
    (run_model (run_model processed urlPath false d1).processedAfter urlPath false d2).returned
        = false ∧
    (run_model (run_model processed urlPath false d1).processedAfter urlPath false
        d2).downloadStarted = false := by
  have key : ∀ (s : List String) (d : Bool),
      (run_model s urlPath false d).returned = false ∧
        (run_model s urlPath false d).downloadStarted = false := by
    intro s d
    unfold run_model
    by_cases hc : urlPath ∈ s
    · simp [hc]
    · simp [hc]
  exact key _ d2

end CyberdropDl
